import Mathlib

/-!
# Verification of the vtinput terminal input decoder

Shallow embedding of the vtinput Go package (CSI framer, Win32/legacy
CSI/SS3/SGR-mouse/Kitty parsers, C0 translator, stateful reader) over
`List Nat` byte buffers, together with theorems settling the frozen claims.

Go machine integers are modelled as follows: `uint16`/`uint32` values are
`Nat` reduced modulo `2^16`/`2^32` where the code converts; Go `int`
(64-bit) and `rune` (`int32`) are `Int` with two's-complement wrapping made
explicit (`wrap64`, `wrap32`).
-/

namespace VtInput

/-! ## Event model (src/events.go) -/

-- ControlKeyState flags (dwControlKeyState)
def RightAltPressed : Nat := 0x0001
def LeftAltPressed : Nat := 0x0002
def RightCtrlPressed : Nat := 0x0004
def LeftCtrlPressed : Nat := 0x0008
def ShiftPressed : Nat := 0x0010
def NumLockOn : Nat := 0x0020
def ScrollLockOn : Nat := 0x0040
def CapsLockOn : Nat := 0x0080
def EnhancedKey : Nat := 0x0100

-- Mouse button states (dwButtonState)
def FromLeft1stButtonPressed : Nat := 0x0001
def RightmostButtonPressed : Nat := 0x0002
def FromLeft2ndButtonPressed : Nat := 0x0004

-- Mouse event flags (dwEventFlags)
def MouseMoved : Nat := 0x0001

-- EventType constants (uint16 in Go)
def KeyEventType : Nat := 0x0001
def MouseEventType : Nat := 0x0002
def FocusEventType : Nat := 0x0010
def PasteEventType : Nat := 0x0020

/-- Modelled from the spec: the virtual-key-code constants file is absent from
src/ (only its users are present); the spec fixes these as "16-bit
Windows-style VK identifier" (scenario 4 pins `VK_F1 = 0x70`,
`scan = 0x3B`), so the standard Win32 values are used. -/
def VK_BACK : Nat := 0x08
def VK_TAB : Nat := 0x09
def VK_CLEAR : Nat := 0x0C
def VK_RETURN : Nat := 0x0D
def VK_SHIFT : Nat := 0x10
def VK_CONTROL : Nat := 0x11
def VK_MENU : Nat := 0x12
def VK_CAPITAL : Nat := 0x14
def VK_ESCAPE : Nat := 0x1B
def VK_SPACE : Nat := 0x20
def VK_PRIOR : Nat := 0x21
def VK_NEXT : Nat := 0x22
def VK_END : Nat := 0x23
def VK_HOME : Nat := 0x24
def VK_LEFT : Nat := 0x25
def VK_UP : Nat := 0x26
def VK_RIGHT : Nat := 0x27
def VK_DOWN : Nat := 0x28
def VK_INSERT : Nat := 0x2D
def VK_DELETE : Nat := 0x2E
def VK_0 : Nat := 0x30
def VK_6 : Nat := 0x36
def VK_A : Nat := 0x41
def VK_C : Nat := 0x43
def VK_LWIN : Nat := 0x5B
def VK_RWIN : Nat := 0x5C
def VK_APPS : Nat := 0x5D
def VK_NUMPAD0 : Nat := 0x60
def VK_NUMPAD1 : Nat := 0x61
def VK_NUMPAD2 : Nat := 0x62
def VK_NUMPAD3 : Nat := 0x63
def VK_NUMPAD4 : Nat := 0x64
def VK_NUMPAD5 : Nat := 0x65
def VK_NUMPAD6 : Nat := 0x66
def VK_NUMPAD7 : Nat := 0x67
def VK_NUMPAD8 : Nat := 0x68
def VK_NUMPAD9 : Nat := 0x69
def VK_MULTIPLY : Nat := 0x6A
def VK_ADD : Nat := 0x6B
def VK_SUBTRACT : Nat := 0x6D
def VK_DECIMAL : Nat := 0x6E
def VK_DIVIDE : Nat := 0x6F
def VK_F1 : Nat := 0x70
def VK_F2 : Nat := 0x71
def VK_F3 : Nat := 0x72
def VK_F4 : Nat := 0x73
def VK_F5 : Nat := 0x74
def VK_F6 : Nat := 0x75
def VK_F7 : Nat := 0x76
def VK_F8 : Nat := 0x77
def VK_F9 : Nat := 0x78
def VK_F10 : Nat := 0x79
def VK_F11 : Nat := 0x7A
def VK_F12 : Nat := 0x7B
def VK_NUMLOCK : Nat := 0x90
def VK_OEM_1 : Nat := 0xBA
def VK_OEM_PLUS : Nat := 0xBB
def VK_OEM_COMMA : Nat := 0xBC
def VK_OEM_MINUS : Nat := 0xBD
def VK_OEM_PERIOD : Nat := 0xBE
def VK_OEM_2 : Nat := 0xBF
def VK_OEM_3 : Nat := 0xC0
def VK_OEM_4 : Nat := 0xDB
def VK_OEM_5 : Nat := 0xDC
def VK_OEM_6 : Nat := 0xDD
def VK_OEM_7 : Nat := 0xDE
def VK_UNASSIGNED : Nat := 0xFF
def ScanCodeLeftShift : Nat := 0x2A
def ScanCodeRightShift : Nat := 0x36

/-- `InputEvent` struct from src/events.go; field defaults mirror Go zero
values. `Char`/`UnshiftedChar` are Go `rune` (int32), `WheelDirection` a Go
`int`. -/
structure InputEvent where
  typ : Nat := 0  -- Go field `Type` (renamed: `Type` is a Lean keyword)
  VirtualKeyCode : Nat := 0
  VirtualScanCode : Nat := 0
  Char : Int := 0
  UnshiftedChar : Int := 0
  KeyDown : Bool := false
  RepeatCount : Nat := 0
  MouseX : Nat := 0
  MouseY : Nat := 0
  ButtonState : Nat := 0
  MouseEventFlags : Nat := 0
  WheelDirection : Int := 0
  SetFocus : Bool := false
  PasteStart : Bool := false
  ControlKeyState : Nat := 0
  IsLegacy : Bool := false
  deriving Repr, DecidableEq

/-- The two sentinel errors of src/parser.go. -/
inductive GoErr where
  | invalidSequence
  | incomplete
  deriving Repr, DecidableEq

/-- The Go triple `(terminatorIdx int, command byte, err error)` returned by
`scanCSI`. -/
structure ScanReturn where
  idx : Nat
  command : Nat
  err : Option GoErr
  deriving Repr, DecidableEq

/-- The Go triple `(*InputEvent, int, error)` returned by every parser. -/
structure ParseReturn where
  event : Option InputEvent
  n : Nat
  err : Option GoErr
  deriving Repr, DecidableEq

/-! ## Numeric helpers modelling Go integer semantics -/

/-- Go `int64` value of a nonnegative accumulation (two's-complement wrap). -/
def wrap64 (n : Nat) : Int :=
  if n % 2 ^ 64 < 2 ^ 63 then ((n % 2 ^ 64 : Nat) : Int)
  else ((n % 2 ^ 64 : Nat) : Int) - 2 ^ 64

/-- Go conversion to `rune`/`int32` (truncate to low 32 bits, signed). -/
def wrap32 (x : Int) : Int :=
  if x % (2 ^ 32 : Int) < 2 ^ 31 then x % (2 ^ 32 : Int)
  else x % (2 ^ 32 : Int) - 2 ^ 32

/-- Go conversion `uint16(x)` of a signed integer: the low 16 bits. -/
def u16ofInt (x : Int) : Nat := (x % (65536 : Int)).toNat

/-- Bit `k` of a Go signed integer in two's complement
(`x & (1<<k) != 0`). -/
def intBit (x : Int) (k : Nat) : Bool :=
  (x % ((2 ^ (k + 1) : Nat) : Int)).toNat / 2 ^ k = 1

def isDigit (b : Nat) : Bool := 48 ≤ b && b ≤ 57

def digitsToNat (s : List Nat) : Nat :=
  s.foldl (fun a b => a * 10 + (b - 48)) 0

/-- Go `strings.Split(s, sep)` for a one-byte separator. -/
def splitByte (sep : Nat) : List Nat → List (List Nat)
  | [] => [[]]
  | b :: rest =>
    match splitByte sep rest with
    | [] => if b = sep then [[], []] else [[b]]
    | h :: t => if b = sep then [] :: h :: t else (b :: h) :: t

/-- Go `strconv.ParseUint(s, 10, 32)` with the error discarded, as used in
`ParseWin32InputEvent`: syntax errors yield 0, range overflow yields
`2^32 - 1`. -/
def parseUint32Go (s : List Nat) : Nat :=
  if s = [] then 0
  else if s.all isDigit then
    if digitsToNat s < 2 ^ 32 then digitsToNat s else 2 ^ 32 - 1
  else 0

/-- Go `strconv.Atoi` with the error discarded: optional sign, syntax errors
yield 0, overflow clamps to the 64-bit bounds (`ParseInt` range
semantics). -/
def atoiGo (s : List Nat) : Int :=
  match s with
  | [] => 0
  | b :: rest =>
    let ds := if b = 45 || b = 43 then rest else s
    let neg := b = 45
    if ds ≠ [] ∧ ds.all isDigit then
      if neg then
        if digitsToNat ds ≤ 2 ^ 63 then -(digitsToNat ds : Int) else -(2 ^ 63)
      else
        if digitsToNat ds < 2 ^ 63 then (digitsToNat ds : Int) else 2 ^ 63 - 1
    else 0

/-! ## CSI framer (src/parser.go, scanCSI) -/

/-- The scan loop of `scanCSI`, from index `i` over the remaining bytes. -/
def scanCSILoop (i : Nat) : List Nat → ScanReturn
  | [] => ⟨0, 0, some .incomplete⟩
  | b :: rest =>
    if 0x40 ≤ b ∧ b ≤ 0x7E then ⟨i, b, none⟩
    else if b < 0x20 ∨ b > 0x3F then ⟨0, 0, some .invalidSequence⟩
    else scanCSILoop (i + 1) rest

/-- `scanCSI` from src/parser.go: locate a CSI frame's terminator. -/
def scanCSI (data : List Nat) : ScanReturn :=
  if data.length < 2 then ⟨0, 0, some .incomplete⟩
  else if data.getD 0 0 ≠ 0x1B ∨ data.getD 1 0 ≠ 0x5B then
    ⟨0, 0, some .invalidSequence⟩
  else scanCSILoop 2 (data.drop 2)

/-! ## Win32 Input Mode parser (src/parser.go, ParseWin32InputEvent) -/

/-- Field assembly of `ParseWin32InputEvent` from the split parameter list.
The `len(params) > i` field guards of the Go code coincide with defaulting a
missing field to the empty string, which `parseUint` sends to 0 (the Go zero
value the guard would have left in place). -/
def win32Build (params : List (List Nat)) : InputEvent :=
  let pu := fun (i : Nat) => parseUint32Go (params.getD i [])
  let rc := pu 5
  { typ := KeyEventType,
    VirtualKeyCode := pu 0 % 65536,
    VirtualScanCode := pu 1 % 65536,
    Char := wrap32 ((pu 2 : Nat) : Int),
    KeyDown := pu 3 = 1,
    ControlKeyState := pu 4,
    RepeatCount := if rc > 0 then rc % 65536 else 1 }

/-- `ParseWin32InputEvent` from src/parser.go. -/
def ParseWin32InputEvent (data : List Nat) : ParseReturn :=
  match scanCSI data with
  | ⟨_, _, some e⟩ => ⟨none, 0, some e⟩
  | ⟨t, c, none⟩ =>
    if c ≠ 0x5F then ⟨none, 0, some .invalidSequence⟩
    else ⟨some (win32Build (splitByte 59 ((data.take t).drop 2))), t + 1, none⟩

/-! ## Legacy CSI parser (src/parser.go) -/

/-- `decodeAnsiModifiers` from src/parser.go (Go `int` bit tests). -/
def decodeAnsiModifiers (modCode : Int) : Nat :=
  let bits := modCode - 1
  (if intBit bits 0 then ShiftPressed else 0) |||
  (if intBit bits 1 then LeftAltPressed else 0) |||
  (if intBit bits 2 then LeftCtrlPressed else 0) |||
  (if intBit bits 3 then EnhancedKey else 0)

/-- `mapCSICommandToVK` from src/parser.go. -/
def mapCSICommandToVK (command : Nat) : Nat :=
  if command = 65 then VK_UP
  else if command = 66 then VK_DOWN
  else if command = 67 then VK_RIGHT
  else if command = 68 then VK_LEFT
  else if command = 72 then VK_HOME
  else if command = 70 then VK_END
  else if command = 80 then VK_F1
  else if command = 81 then VK_F2
  else if command = 82 then VK_F3
  else if command = 83 then VK_F4
  else if command = 90 then VK_TAB
  else 0

/-- `mapTildeToVK` from src/parser.go. -/
def mapTildeToVK (code : Int) : Nat :=
  if code = 1 ∨ code = 7 then VK_HOME
  else if code = 2 then VK_INSERT
  else if code = 3 then VK_DELETE
  else if code = 4 ∨ code = 8 then VK_END
  else if code = 5 then VK_PRIOR
  else if code = 6 then VK_NEXT
  else if 11 ≤ code ∧ code ≤ 15 then (VK_F1 + (code - 11)).toNat
  else if 17 ≤ code ∧ code ≤ 21 then (VK_F6 + (code - 17)).toNat
  else if code = 23 ∨ code = 24 then (VK_F11 + (code - 23)).toNat
  else 0

/-- The `getParam` closure of `ParseLegacyCSI`. -/
def getParam (params : List (List Nat)) (idx : Nat) (default : Int) : Int :=
  if params.length ≤ idx ∨ params.getD idx [] = [] then default
  else atoiGo (params.getD idx [])

/-- The VK computed by `ParseLegacyCSI` (`~` table or terminator map). -/
def legacyCSIvk (command : Nat) (params : List (List Nat)) : Nat :=
  if command = 126 then mapTildeToVK (getParam params 0 0)
  else mapCSICommandToVK command

/-- The modifier mask computed by `ParseLegacyCSI` (second parameter, with
Shift forced for the `Z` back-tab terminator). -/
def legacyCSIcks (command : Nat) (params : List (List Nat)) : Nat :=
  decodeAnsiModifiers (getParam params 1 1) |||
  (if command ≠ 126 ∧ command = 90 then ShiftPressed else 0)

/-- The event assembled by `ParseLegacyCSI` on success. -/
def legacyCSIBuild (c : Nat) (params : List (List Nat)) : InputEvent :=
  { typ := KeyEventType, KeyDown := true,
    ControlKeyState := legacyCSIcks c params,
    VirtualKeyCode := legacyCSIvk c params,
    IsLegacy := true }

/-- `ParseLegacyCSI` from src/parser.go. -/
def ParseLegacyCSI (data : List Nat) : ParseReturn :=
  match scanCSI data with
  | ⟨_, _, some e⟩ => ⟨none, 0, some e⟩
  | ⟨t, c, none⟩ =>
    if legacyCSIvk c (splitByte 59 ((data.take t).drop 2)) = 0 then
      ⟨none, 0, some .invalidSequence⟩
    else
      ⟨some (legacyCSIBuild c (splitByte 59 ((data.take t).drop 2))),
       t + 1, none⟩

/-! ## Legacy SS3 parser (src/parser.go) -/

/-- The `switch data[2]` table of `ParseLegacySS3` (`none` is the `default`
branch). -/
def ss3VK (b : Nat) : Option Nat :=
  if b = 80 then some VK_F1
  else if b = 81 then some VK_F2
  else if b = 82 then some VK_F3
  else if b = 83 then some VK_F4
  else if b = 72 then some VK_HOME
  else if b = 70 then some VK_END
  else none

/-- `ParseLegacySS3` from src/parser.go. -/
def ParseLegacySS3 (data : List Nat) : ParseReturn :=
  if data.length < 2 then ⟨none, 0, some .incomplete⟩
  else if data.getD 0 0 ≠ 0x1B ∨ data.getD 1 0 ≠ 0x4F then
    ⟨none, 0, some .invalidSequence⟩
  else if data.length < 3 then ⟨none, 0, some .incomplete⟩
  else
    match ss3VK (data.getD 2 0) with
    | none => ⟨none, 0, some .invalidSequence⟩
    | some v =>
      ⟨some { typ := KeyEventType, KeyDown := true, IsLegacy := true,
              VirtualKeyCode := v },
       3, none⟩

/-! ## SGR mouse parser (src/parser.go) -/

/-- The `Pb & 0x03` button index of the SGR decode. -/
def sgrButtonPart (pb : Int) : Nat := (pb % (4 : Int)).toNat

/-- The wheel direction decoded from `Pb` (bit 6 plus button index). -/
def sgrWheelDir (pb : Int) : Int :=
  if intBit pb 6 then
    if sgrButtonPart pb = 0 then 1
    else if sgrButtonPart pb = 1 then -1
    else 0
  else 0

/-- The button mask decoded from `Pb` (buttons only when bit 6 is clear). -/
def sgrButton (pb : Int) : Nat :=
  if intBit pb 6 then 0
  else if sgrButtonPart pb = 0 then FromLeft1stButtonPressed
  else if sgrButtonPart pb = 1 then FromLeft2ndButtonPressed
  else if sgrButtonPart pb = 2 then RightmostButtonPressed
  else 0

/-- The event flags decoded from `Pb` (bit 5 means motion). -/
def sgrFlags (pb : Int) : Nat := if intBit pb 5 then MouseMoved else 0

/-- The modifier mask decoded from `Pb` (bits 2/3/4). -/
def sgrMods (pb : Int) : Nat :=
  (if intBit pb 2 then ShiftPressed else 0) |||
  (if intBit pb 3 then LeftAltPressed else 0) |||
  (if intBit pb 4 then LeftCtrlPressed else 0)

/-- The event assembled by `ParseMouseSGR` on success. -/
def sgrBuild (c : Nat) (params : List (List Nat)) : InputEvent :=
  let pb := atoiGo (params.getD 0 [])
  let px := atoiGo (params.getD 1 [])
  let py := atoiGo (params.getD 2 [])
  { typ := MouseEventType,
    MouseX := u16ofInt px,
    MouseY := u16ofInt py,
    KeyDown := c = 77,
    WheelDirection := sgrWheelDir pb,
    ButtonState := sgrButton pb,
    MouseEventFlags := sgrFlags pb,
    ControlKeyState := sgrMods pb }

/-- `ParseMouseSGR` from src/parser.go. -/
def ParseMouseSGR (data : List Nat) : ParseReturn :=
  match scanCSI data with
  | ⟨_, _, some e⟩ => ⟨none, 0, some e⟩
  | ⟨t, c, none⟩ =>
    if data.length < 3 ∨ data.getD 2 0 ≠ 0x3C then
      ⟨none, 0, some .invalidSequence⟩
    else if (splitByte 59 ((data.take t).drop 3)).length < 3 then
      ⟨none, 0, some .invalidSequence⟩
    else ⟨some (sgrBuild c (splitByte 59 ((data.take t).drop 3))), t + 1, none⟩

/-! ## Kitty Keyboard parser (src/parser.go, ParseKitty) -/

/-- The `var params [2][3]int` matrix of `ParseKitty` (Go zero-initialised);
`pIJ` is `params[I][J]`, stored as the raw accumulated `Nat` (its Go `int`
value is `wrap64` of it). -/
structure KittyParams where
  p00 : Nat := 0
  p01 : Nat := 0
  p02 : Nat := 0
  p10 : Nat := 0
  p11 : Nat := 0
  p12 : Nat := 0
  deriving Repr, DecidableEq

/-- `params[fc][sc] = v` (indices are kept within 0..1 × 0..2 by the loop's
guards). -/
def setKP (ps : KittyParams) (fc sc : Nat) (v : Nat) : KittyParams :=
  match fc, sc with
  | 0, 0 => { ps with p00 := v }
  | 0, 1 => { ps with p01 := v }
  | 0, 2 => { ps with p02 := v }
  | 1, 0 => { ps with p10 := v }
  | 1, 1 => { ps with p11 := v }
  | 1, 2 => { ps with p12 := v }
  | _, _ => ps

def getKP (ps : KittyParams) (fc sc : Nat) : Nat :=
  match fc, sc with
  | 0, 0 => ps.p00
  | 0, 1 => ps.p01
  | 0, 2 => ps.p02
  | 1, 0 => ps.p10
  | 1, 1 => ps.p11
  | 1, 2 => ps.p12
  | _, _ => 0

/-- The parameter-scanning loop of `ParseKitty` (`;`/`:`-separated digit
groups). The Go loop consumes a maximal digit run and stores its value once;
here each digit folds into the slot immediately, which yields the same
`params`: every slot starts at 0 and, since `;`/`:` always move to a fresh
slot, is the target of at most one digit run. `none` is the loop's
`ErrInvalidSequence` return. -/
def kittyLoop : List Nat → Nat → Nat → KittyParams → Option KittyParams
  | [], _, _, ps => some ps
  | b :: rest, fc, sc, ps =>
    if b = 59 then
      if fc + 1 ≥ 2 then none
      else kittyLoop rest (fc + 1) 0 ps
    else if b = 58 then
      if sc + 1 ≥ 3 then none
      else kittyLoop rest fc (sc + 1) ps
    else if 48 ≤ b ∧ b ≤ 57 then
      kittyLoop rest fc sc (setKP ps fc sc (getKP ps fc sc * 10 + (b - 48)))
    else none

/-- The `validTerm` switch of `ParseKitty`. -/
def kittyValidTerm (command : Nat) : Bool :=
  command = 117 ∨ command = 126 ∨ command = 65 ∨ command = 66 ∨ command = 67 ∨
  command = 68 ∨ command = 69 ∨ command = 70 ∨ command = 72 ∨ command = 80 ∨
  command = 81 ∨ command = 82 ∨ command = 83

/-- The `modifState` bit decoding of `ParseKitty` (applied to
`modifState - 1`, which the `modifState > 0` guard keeps nonnegative). -/
def decodeKittyMods (m : Nat) : Nat :=
  (if m &&& 1 ≠ 0 then ShiftPressed else 0) |||
  (if m &&& 2 ≠ 0 then LeftAltPressed else 0) |||
  (if m &&& 4 ≠ 0 then LeftCtrlPressed else 0) |||
  (if m &&& 8 ≠ 0 then LeftCtrlPressed else 0) |||
  (if m &&& 64 ≠ 0 then CapsLockOn else 0) |||
  (if m &&& 128 ≠ 0 then NumLockOn else 0)

/-- Go `unicode.ToUpper` as used on the carrier char; the mapping is modelled
on the ASCII range (identity elsewhere — the full Unicode tables are outside
the embedding; the claims proved here concern when the transform is
applied). -/
def toUpperGo (c : Int) : Int :=
  if 97 ≤ c ∧ c ≤ 122 then c - 32 else c

/-- Go `utf8.ValidRune` (on an `int32` value). -/
def validRuneGo (r : Int) : Bool :=
  (0 ≤ r ∧ r < 0xD800) ∨ (0xDFFF < r ∧ r ≤ 0x10FFFF)

/-- The `switch baseChar` block of `ParseKitty` (src/parser.go lines
354–449): returns the VK override (or `none` to keep the previous value),
the scan code to set, and the control-key-state bits to OR in. -/
def kittySwitch (baseChar : Int) (command : Nat) (eventType : Int) :
    Option Nat × Nat × Nat :=
  match baseChar with
  | 96 => (some VK_OEM_3, 0, 0)
  | 45 => (some VK_OEM_MINUS, 0, 0)
  | 61 => (some VK_OEM_PLUS, 0, 0)
  | 91 => (some VK_OEM_4, 0, 0)
  | 93 => (some VK_OEM_6, 0, 0)
  | 92 => (some VK_OEM_5, 0, 0)
  | 59 => (some VK_OEM_1, 0, 0)
  | 39 => (some VK_OEM_7, 0, 0)
  | 44 => (some VK_OEM_COMMA, 0, 0)
  | 46 => (some VK_OEM_PERIOD, 0, 0)
  | 47 => (some VK_OEM_2, 0, 0)
  | 9 => (some VK_TAB, 0, 0)
  | 27 => (some VK_ESCAPE, 0, 0)
  | 13 => (some (if command = 126 then VK_F3 else VK_RETURN), 0, 0)
  | 127 => (some VK_BACK, 0, 0)
  | 2 => (if command = 126 then some VK_INSERT else none, 0, 0)
  | 3 => (if command = 126 then some VK_DELETE else none, 0, 0)
  | 5 => if command = 126 then (some VK_PRIOR, 0, EnhancedKey) else (none, 0, 0)
  | 6 => if command = 126 then (some VK_NEXT, 0, EnhancedKey) else (none, 0, 0)
  | 8 => (if command = 117 then some VK_BACK else none, 0, 0)
  | 11 => (if command = 126 then some VK_F1 else none, 0, 0)
  | 12 => (if command = 126 then some VK_F2 else none, 0, 0)
  | 14 => (if command = 126 then some VK_F4 else none, 0, 0)
  | 15 => (if command = 126 then some VK_F5 else none, 0, 0)
  | 17 => (if command = 126 then some VK_F6 else none, 0, 0)
  | 18 => (if command = 126 then some VK_F7 else none, 0, 0)
  | 19 => (if command = 126 then some VK_F8 else none, 0, 0)
  | 20 => (if command = 126 then some VK_F9 else none, 0, 0)
  | 21 => (if command = 126 then some VK_F10 else none, 0, 0)
  | 23 => (if command = 126 then some VK_F11 else none, 0, 0)
  | 24 => (if command = 126 then some VK_F12 else none, 0, 0)
  | 32 => (some VK_SPACE, 0, 0)
  | 57399 | 57425 => (some VK_NUMPAD0, 0, 0)
  | 57400 | 57424 => (some VK_NUMPAD1, 0, 0)
  | 57401 | 57420 => (some VK_NUMPAD2, 0, 0)
  | 57402 | 57422 => (some VK_NUMPAD3, 0, 0)
  | 57403 | 57417 => (some VK_NUMPAD4, 0, 0)
  | 57404 | 57427 => (some VK_NUMPAD5, 0, 0)
  | 57405 | 57418 => (some VK_NUMPAD6, 0, 0)
  | 57406 | 57423 => (some VK_NUMPAD7, 0, 0)
  | 57407 | 57419 => (some VK_NUMPAD8, 0, 0)
  | 57408 | 57421 => (some VK_NUMPAD9, 0, 0)
  | 57409 | 57426 => (some VK_DECIMAL, 0, 0)
  | 57410 => (some VK_DIVIDE, 0, 0)
  | 57411 => (some VK_MULTIPLY, 0, 0)
  | 57412 => (some VK_SUBTRACT, 0, 0)
  | 57413 => (some VK_ADD, 0, 0)
  | 57414 => (some VK_RETURN, 0, 0)
  | 57444 => (some VK_LWIN, 0, 0)
  | 57450 => (some VK_RWIN, 0, 0)
  | 57363 => (some VK_APPS, 0, 0)
  | 57448 =>
    (some VK_CONTROL, 0,
     if eventType ≠ 3 then RightCtrlPressed ||| EnhancedKey else 0)
  | 57442 =>
    (some VK_CONTROL, 0, if eventType ≠ 3 then LeftCtrlPressed else 0)
  | 57443 => (some VK_MENU, 0, if eventType ≠ 3 then LeftAltPressed else 0)
  | 57449 =>
    (some VK_MENU, 0,
     if eventType ≠ 3 then RightAltPressed ||| EnhancedKey else 0)
  | 57441 =>
    (some VK_SHIFT, ScanCodeLeftShift,
     if eventType ≠ 3 then ShiftPressed else 0)
  | 57447 =>
    (some VK_SHIFT, ScanCodeRightShift,
     if eventType ≠ 3 then ShiftPressed else 0)
  | 57360 => (some VK_NUMLOCK, 0, 0)
  | 57358 => (some VK_CAPITAL, 0, 0)
  | _ => (none, 0, 0)

/-- The `switch command` terminator-override block of `ParseKitty`
(src/parser.go lines 451–463): VK override and control-key-state bits. -/
def kittyTermSwitch (command : Nat) : Option Nat × Nat :=
  if command = 65 then (some VK_UP, EnhancedKey)
  else if command = 66 then (some VK_DOWN, EnhancedKey)
  else if command = 67 then (some VK_RIGHT, EnhancedKey)
  else if command = 68 then (some VK_LEFT, EnhancedKey)
  else if command = 69 then (some VK_CLEAR, 0)
  else if command = 72 then (some VK_HOME, EnhancedKey)
  else if command = 70 then (some VK_END, EnhancedKey)
  else if command = 80 then (some VK_F1, 0)
  else if command = 81 then (some VK_F2, 0)
  else if command = 82 then (some VK_F3, 0)
  else if command = 83 then (some VK_F4, 0)
  else (none, 0)

/-- Assembly of the Kitty event (src/parser.go lines 316–499) from the parsed
parameter matrix and the terminator byte. -/
def kittyBuild (ps : KittyParams) (command : Nat) : InputEvent :=
  let eventType : Int := wrap64 ps.p11
  let modifState : Int := wrap64 ps.p10
  let cks0 : Nat :=
    if modifState > 0 then decodeKittyMods (modifState - 1).toNat else 0
  let unsh : Int := if wrap64 ps.p00 > 0 then wrap32 (wrap64 ps.p00) else 0
  let baseChar0 : Int :=
    if wrap64 ps.p02 = 0 then wrap64 ps.p00 else wrap64 ps.p02
  let baseChar : Int :=
    if baseChar0 ≤ 255 ∧ 65 ≤ baseChar0 ∧ baseChar0 ≤ 90 then baseChar0 + 32
    else baseChar0
  let vk1 : Nat :=
    if baseChar ≤ 255 ∧ 97 ≤ baseChar ∧ baseChar ≤ 122 then
      (baseChar - 97 + 65).toNat
    else 0
  let vk2 : Nat :=
    if baseChar ≤ 255 ∧ 48 ≤ baseChar ∧ baseChar ≤ 57 then
      (baseChar - 48 + 48).toNat
    else vk1
  let sw := kittySwitch baseChar command eventType
  let vk3 : Nat := sw.1.getD vk2
  let term := kittyTermSwitch command
  let vk4 : Nat := term.1.getD vk3
  let cks : Nat := cks0 ||| sw.2.2 ||| term.2
  let uc0 : Int := if wrap64 ps.p01 = 0 then wrap64 ps.p00 else wrap64 ps.p01
  let uc : Int :=
    if uc0 < 32 ∨ uc0 = 127 ∨ (57358 ≤ uc0 ∧ uc0 ≤ 57454) then 0 else uc0
  let ch0 : Int := if uc > 0 ∧ validRuneGo (wrap32 uc) then wrap32 uc else 0
  let vk : Nat := if ch0 > 0 ∧ vk4 = 0 then VK_UNASSIGNED else vk4
  let ch1 : Int :=
    if cks &&& CapsLockOn ≠ 0 ∧ cks &&& ShiftPressed = 0 then toUpperGo ch0
    else ch0
  let ch : Int :=
    if (cks &&& LeftAltPressed ≠ 0 ∨ cks &&& RightAltPressed ≠ 0) ∧
       ¬(vk = VK_ESCAPE ∨ vk = VK_DELETE ∨ vk = VK_BACK ∨ vk = VK_TAB ∨
         vk = VK_RETURN ∨ vk = VK_SPACE) ∧
       ch1 > 0 then toUpperGo ch1
    else ch1
  { typ := KeyEventType,
    VirtualKeyCode := vk,
    VirtualScanCode := sw.2.1,
    Char := ch,
    UnshiftedChar := unsh,
    KeyDown := eventType ≠ 3,
    RepeatCount := 1,
    ControlKeyState := cks }

/-- `ParseKitty` from src/parser.go. -/
def ParseKitty (data : List Nat) : ParseReturn :=
  match scanCSI data with
  | ⟨_, _, some e⟩ => ⟨none, 0, some e⟩
  | ⟨t, c, none⟩ =>
    if ¬ kittyValidTerm c then ⟨none, 0, some .invalidSequence⟩
    else
      match kittyLoop ((data.take t).drop 2) 0 0 {} with
      | none => ⟨none, 0, some .invalidSequence⟩
      | some ps => ⟨some (kittyBuild ps c), t + 1, none⟩

/-! ## UTF-8 decoding (Go unicode/utf8, as used by the reader) -/

/-- Per-lead-byte data of Go utf8's `first`/`acceptRanges` tables: the
sequence size (0 for an invalid lead byte) and the accepted range of the
second byte. -/
def utf8Accept (b : Nat) : Nat × Nat × Nat :=
  if b ≤ 0x7F then (1, 0, 0)
  else if 0xC2 ≤ b ∧ b ≤ 0xDF then (2, 0x80, 0xBF)
  else if b = 0xE0 then (3, 0xA0, 0xBF)
  else if 0xE1 ≤ b ∧ b ≤ 0xEC then (3, 0x80, 0xBF)
  else if b = 0xED then (3, 0x80, 0x9F)
  else if 0xEE ≤ b ∧ b ≤ 0xEF then (3, 0x80, 0xBF)
  else if b = 0xF0 then (4, 0x90, 0xBF)
  else if 0xF1 ≤ b ∧ b ≤ 0xF3 then (4, 0x80, 0xBF)
  else if b = 0xF4 then (4, 0x80, 0x8F)
  else (0, 0, 0)

/-- Go `utf8.FullRune`: false only when the buffer is a proper prefix of a
valid encoding (an already-invalid encoding counts as full). -/
def fullRuneGo (p : List Nat) : Bool :=
  match p with
  | [] => false
  | b :: rest =>
    let a := utf8Accept b
    if a.1 = 0 then true
    else if a.1 ≤ rest.length + 1 then true
    else
      match rest with
      | [] => false
      | b1 :: rest1 =>
        if b1 < a.2.1 ∨ a.2.2 < b1 then true
        else
          match rest1 with
          | [] => false
          | b2 :: _ => b2 < 0x80 ∨ 0xBF < b2

/-- Go `utf8.DecodeRune`: the decoded rune and its size; `(0xFFFD, 1)` for an
invalid encoding, `(0xFFFD, 0)` for an empty buffer. -/
def decodeRuneGo (p : List Nat) : Int × Nat :=
  match p with
  | [] => (0xFFFD, 0)
  | b :: rest =>
    let a := utf8Accept b
    if b ≤ 0x7F then ((b : Int), 1)
    else if a.1 = 0 then (0xFFFD, 1)
    else
      match rest with
      | [] => (0xFFFD, 1)
      | b1 :: rest1 =>
        if b1 < a.2.1 ∨ a.2.2 < b1 then (0xFFFD, 1)
        else if a.1 = 2 then (((b - 0xC0) * 64 + (b1 - 0x80) : Nat), 2)
        else
          match rest1 with
          | [] => (0xFFFD, 1)
          | b2 :: rest2 =>
            if b2 < 0x80 ∨ 0xBF < b2 then (0xFFFD, 1)
            else if a.1 = 3 then
              (((b - 0xE0) * 4096 + (b1 - 0x80) * 64 + (b2 - 0x80) : Nat), 3)
            else
              match rest2 with
              | [] => (0xFFFD, 1)
              | b3 :: _ =>
                if b3 < 0x80 ∨ 0xBF < b3 then (0xFFFD, 1)
                else
                  (((b - 0xF0) * 262144 + (b1 - 0x80) * 4096 +
                    (b2 - 0x80) * 64 + (b3 - 0x80) : Nat), 4)

/-! ## C0 translator (src/unnamed/part_002, translateLegacyByte) -/

/-- `translateLegacyByte` from the reader source: C0 control characters to
key events (all with `IsLegacy = true`). -/
def translateLegacyByte (r : Int) : Option InputEvent :=
  if r = 0x00 then
    some { typ := KeyEventType, KeyDown := true, IsLegacy := true,
           VirtualKeyCode := VK_SPACE, Char := 32,
           ControlKeyState := LeftCtrlPressed }
  else if r = 0x08 then
    some { typ := KeyEventType, KeyDown := true, IsLegacy := true,
           VirtualKeyCode := VK_BACK }
  else if r = 0x09 then
    some { typ := KeyEventType, KeyDown := true, IsLegacy := true,
           VirtualKeyCode := VK_TAB, Char := 9 }
  else if r = 0x0D then
    some { typ := KeyEventType, KeyDown := true, IsLegacy := true,
           VirtualKeyCode := VK_RETURN, Char := 13 }
  else if r = 0x1B then
    some { typ := KeyEventType, KeyDown := true, IsLegacy := true,
           VirtualKeyCode := VK_ESCAPE }
  else if r = 0x1C then
    some { typ := KeyEventType, KeyDown := true, IsLegacy := true,
           VirtualKeyCode := VK_OEM_5, ControlKeyState := LeftCtrlPressed }
  else if r = 0x1D then
    some { typ := KeyEventType, KeyDown := true, IsLegacy := true,
           VirtualKeyCode := VK_OEM_6, ControlKeyState := LeftCtrlPressed }
  else if r = 0x1E then
    some { typ := KeyEventType, KeyDown := true, IsLegacy := true,
           VirtualKeyCode := VK_6, ControlKeyState := LeftCtrlPressed }
  else if r = 0x1F then
    some { typ := KeyEventType, KeyDown := true, IsLegacy := true,
           VirtualKeyCode := VK_OEM_MINUS, ControlKeyState := LeftCtrlPressed }
  else if 1 ≤ r ∧ r ≤ 26 then
    some { typ := KeyEventType, KeyDown := true, IsLegacy := true,
           VirtualKeyCode := (VK_A + (r - 1)).toNat,
           ControlKeyState := LeftCtrlPressed }
  else none

/-! ## Stateful reader (src/unnamed/part_002, ReadEvent) -/

/-- Which branch of `ReadEvent` emitted an event (instrumentation tag: each
constructor names one `return` site of the Go code). -/
inductive ReadPath where
  | ss3
  | focusIn
  | focusOut
  | pasteBegin
  | pasteEnd
  | win32
  | sgrMouse
  | kitty
  | legacyCSI
  | doubleEsc
  | altKey
  | backDel
  | ctrlByte
  | utf8Char
  deriving Repr, DecidableEq

/-- Outcome of one pass of the `ReadEvent` loop body on the current buffer:
an emitted event with its byte count and branch tag, the wait-for-more state
(head is ESC; a 100 ms timeout races the producer), or a plain blocking wait
for more bytes. -/
inductive StepResult where
  | emit (e : InputEvent) (consumed : Nat) (p : ReadPath)
  | escWait
  | needMore
  deriving Repr, DecidableEq

/-- The Esc key event literal of the double-ESC and timeout `return`
statements (`IsLegacy` is left at its Go zero value there). -/
def escKeyEvent : InputEvent :=
  { typ := KeyEventType, VirtualKeyCode := VK_ESCAPE, KeyDown := true }

/-- The complete-CSI dispatch of `ReadEvent` (focus, paste, and the parser
switch on the terminator). `none` models the fall-through when the selected
parser rejects the frame. -/
def readDispatch (buf : List Nat) (tIdx : Nat) (command : Nat) :
    Option (InputEvent × Nat × ReadPath) :=
  if command = 73 ∧ tIdx = 2 then
    some ({ typ := FocusEventType, SetFocus := true }, 3, .focusIn)
  else if command = 79 ∧ tIdx = 2 then
    some ({ typ := FocusEventType, SetFocus := false }, 3, .focusOut)
  else if command = 126 ∧ (buf.take tIdx).drop 2 = [50, 48, 48] then
    some ({ typ := PasteEventType, PasteStart := true }, tIdx + 1, .pasteBegin)
  else if command = 126 ∧ (buf.take tIdx).drop 2 = [50, 48, 49] then
    some ({ typ := PasteEventType, PasteStart := false }, tIdx + 1, .pasteEnd)
  else if command = 95 then
    match ParseWin32InputEvent buf with
    | ⟨some e, n, none⟩ => some (e, n, .win32)
    | _ => none
  else if command = 77 ∨ command = 109 then
    match ParseMouseSGR buf with
    | ⟨some e, n, none⟩ => some (e, n, .sgrMouse)
    | _ => none
  else
    match ParseKitty buf with
    | ⟨some e, n, none⟩ => some (e, n, .kitty)
    | ⟨_, _, some .invalidSequence⟩ =>
      match ParseLegacyCSI buf with
      | ⟨some e, n, none⟩ => some (e, n, .legacyCSI)
      | _ => none
    | _ => none

/-- Steps 3–5 of `ReadEvent`'s ESC branch: double ESC, legacy Alt+char, or
enter the wait-for-more state. -/
def readEscFallback (buf : List Nat) : StepResult :=
  if 2 ≤ buf.length ∧ buf.getD 1 0 = 0x1B then .emit escKeyEvent 2 .doubleEsc
  else if 2 ≤ buf.length ∧ fullRuneGo (buf.drop 1) then
    .emit
      { typ := KeyEventType, Char := (decodeRuneGo (buf.drop 1)).1,
        ControlKeyState := LeftAltPressed, KeyDown := true, IsLegacy := true }
      (1 + (decodeRuneGo (buf.drop 1)).2) .altKey
  else .escWait

/-- One pass of `ReadEvent`'s loop body over a nonempty buffer (the pure
disambiguation core; the producer/timeout race is `waitForMore` below). -/
def readStep (buf : List Nat) : StepResult :=
  if buf = [] then .needMore
  else if buf.getD 0 0 = 0x1B then
    if (ParseLegacySS3 buf).err = none then
      match (ParseLegacySS3 buf).event with
      | some e => .emit e (ParseLegacySS3 buf).n .ss3
      | none => .escWait
    else if (ParseLegacySS3 buf).err = some .incomplete then .escWait
    else
      if (scanCSI buf).err = none then
        match readDispatch buf (scanCSI buf).idx (scanCSI buf).command with
        | some (e, n, p) => .emit e n p
        | none => readEscFallback buf
      else if (scanCSI buf).err = some .incomplete then .escWait
      else readEscFallback buf
  else if buf.getD 0 0 = 0x7F then
    .emit
      { typ := KeyEventType, VirtualKeyCode := VK_BACK, KeyDown := true,
        IsLegacy := true }
      1 .backDel
  else if fullRuneGo buf then
    match translateLegacyByte (decodeRuneGo buf).1 with
    | some e => .emit e (decodeRuneGo buf).2 .ctrlByte
    | none =>
      .emit
        { typ := KeyEventType, Char := (decodeRuneGo buf).1, KeyDown := true,
          IsLegacy := true }
        (decodeRuneGo buf).2 .utf8Char
  else .needMore

/-- The 100 ms lone-ESC timeout constant of the `select` in `ReadEvent`. -/
def escTimeoutMillis : Nat := 100

/-- The three outcomes raced by the wait-for-more `select`: a byte arrives
first, the `escTimeoutMillis` timer fires first, or the producer reports
end-of-stream (with whatever bytes were still queued). -/
inductive WaitOutcome where
  | byteArrives (b : Nat)
  | timedOut
  | sourceDone (pending : List Nat)
  deriving Repr, DecidableEq

/-- Result of the wait-for-more `select`: loop again with a new buffer, emit
an event with a new buffer, or surface the source error. -/
inductive WaitStep where
  | continueWith (buf : List Nat)
  | emitEvent (e : InputEvent) (buf : List Nat)
  | sourceErr
  deriving Repr, DecidableEq

/-- The wait-for-more `select` of `ReadEvent`: on a byte, append and loop; on
timeout, drop the leading byte (the ESC that led here) and emit the bare Esc
key event; on the error channel, drain pending bytes and only surface the
error with an empty buffer. -/
def waitForMore (buf : List Nat) : WaitOutcome → WaitStep
  | .byteArrives b => .continueWith (buf ++ [b])
  | .timedOut => .emitEvent escKeyEvent (buf.drop 1)
  | .sourceDone pending =>
    if buf ++ pending = [] then .sourceErr else .continueWith (buf ++ pending)

/-! ## Specification-side definitions and shared lemmas -/

/-- The framer scan rule in the spec's words: from the current index, a byte
in `0x40..0x7E` is the terminator, a byte in `0x20..0x3F` is a legal
intermediate/parameter byte, anything else is invalid, and running out of
bytes is incomplete. -/
def scanCSISpecLoop (i : Nat) : List Nat → ScanReturn
  | [] => ⟨0, 0, some .incomplete⟩
  | b :: rest =>
    if 0x40 ≤ b ∧ b ≤ 0x7E then ⟨i, b, none⟩
    else if 0x20 ≤ b ∧ b ≤ 0x3F then scanCSISpecLoop (i + 1) rest
    else ⟨0, 0, some .invalidSequence⟩

/-- The CSI framer in the spec's words: fewer than 2 bytes is incomplete, a
first pair other than `0x1B 0x5B` is invalid, otherwise scan from index 2. -/
def scanCSISpec (data : List Nat) : ScanReturn :=
  if data.length < 2 then ⟨0, 0, some .incomplete⟩
  else if data.getD 0 0 ≠ 0x1B ∨ data.getD 1 0 ≠ 0x5B then
    ⟨0, 0, some .invalidSequence⟩
  else scanCSISpecLoop 2 (data.drop 2)

theorem scanCSILoop_eq_spec (l : List Nat) : ∀ i,
    scanCSILoop i l = scanCSISpecLoop i l := by
  induction l with
  | nil => intro i; rfl
  | cons b rest ih =>
    intro i
    show (if 0x40 ≤ b ∧ b ≤ 0x7E then ScanReturn.mk i b none
          else if b < 0x20 ∨ b > 0x3F then ⟨0, 0, some .invalidSequence⟩
          else scanCSILoop (i + 1) rest) =
         (if 0x40 ≤ b ∧ b ≤ 0x7E then ScanReturn.mk i b none
          else if 0x20 ≤ b ∧ b ≤ 0x3F then scanCSISpecLoop (i + 1) rest
          else ⟨0, 0, some .invalidSequence⟩)
    by_cases h1 : 0x40 ≤ b ∧ b ≤ 0x7E
    · simp [h1]
    · by_cases h2 : 0x20 ≤ b ∧ b ≤ 0x3F
      · have h3 : ¬(b < 0x20 ∨ b > 0x3F) := by omega
        simp [h1, h2, h3, ih]
      · have h3 : b < 0x20 ∨ b > 0x3F := by omega
        simp [h1, h2, h3]

theorem scanCSILoop_ok_bounds : ∀ (l : List Nat) (i t c : Nat),
    scanCSILoop i l = ⟨t, c, none⟩ → i ≤ t ∧ t < i + l.length := by
  intro l
  induction l with
  | nil => intro i t c h; exact absurd h (by simp [scanCSILoop])
  | cons b rest ih =>
    intro i t c h
    unfold scanCSILoop at h
    split at h
    · obtain ⟨h1, h2, h3⟩ := ScanReturn.mk.injEq .. ▸ h
      simp only [List.length_cons]
      omega
    · split at h
      · exact absurd h (by simp)
      · have := ih (i + 1) t c h
        simp only [List.length_cons]
        omega

theorem scanCSI_ok_bounds {data : List Nat} {t c : Nat}
    (h : scanCSI data = ⟨t, c, none⟩) : 2 ≤ t ∧ t < data.length := by
  unfold scanCSI at h
  split at h
  · exact absurd h (by simp)
  · split at h
    · exact absurd h (by simp)
    · have hb := scanCSILoop_ok_bounds _ _ _ _ h
      have hl : (data.drop 2).length = data.length - 2 := by
        simp [List.length_drop]
      omega

/-- C1 claim, stated over the program's framer. -/
theorem scanCSI_follows_spec_rules (data : List Nat) :
    scanCSI data = scanCSISpec data := by
  unfold scanCSI scanCSISpec
  split
  · rfl
  · split
    · rfl
    · exact scanCSILoop_eq_spec _ _

/-- The C10 contract for one Go parser return value on a given input: an
error comes with a nil event and 0 consumed bytes; success comes with an
event and a positive consumed count bounded by the input length. -/
def parserContract (r : ParseReturn) (data : List Nat) : Prop :=
  (r.err ≠ none → r.event = none ∧ r.n = 0) ∧
  (r.err = none → r.event ≠ none ∧ 0 < r.n ∧ r.n ≤ data.length)

theorem win32_contract (data : List Nat) :
    parserContract (ParseWin32InputEvent data) data := by
  unfold ParseWin32InputEvent parserContract
  split
  · simp
  · rename_i t c hs
    have hb := scanCSI_ok_bounds hs
    split
    · simp
    · exact ⟨fun hh => absurd rfl hh,
        fun _ => ⟨by simp, Nat.succ_pos _, (by omega : t + 1 ≤ data.length)⟩⟩

theorem legacyCSI_contract (data : List Nat) :
    parserContract (ParseLegacyCSI data) data := by
  unfold ParseLegacyCSI parserContract
  split
  · simp
  · rename_i t c hs
    have hb := scanCSI_ok_bounds hs
    split
    · simp
    · exact ⟨fun hh => absurd rfl hh,
        fun _ => ⟨by simp, Nat.succ_pos _, (by omega : t + 1 ≤ data.length)⟩⟩

theorem ss3_contract (data : List Nat) :
    parserContract (ParseLegacySS3 data) data := by
  unfold ParseLegacySS3 parserContract
  split
  · simp
  · split
    · simp
    · split
      · simp
      · split
        · simp
        · exact ⟨fun hh => absurd rfl hh,
            fun _ => ⟨by simp, (by omega : 0 < 3), (by omega : 3 ≤ data.length)⟩⟩

theorem sgr_contract (data : List Nat) :
    parserContract (ParseMouseSGR data) data := by
  unfold ParseMouseSGR parserContract
  split
  · simp
  · rename_i t c hs
    have hb := scanCSI_ok_bounds hs
    split
    · simp
    · split
      · simp
      · exact ⟨fun hh => absurd rfl hh,
          fun _ => ⟨by simp, Nat.succ_pos _, (by omega : t + 1 ≤ data.length)⟩⟩

theorem kitty_contract (data : List Nat) :
    parserContract (ParseKitty data) data := by
  unfold ParseKitty parserContract
  split
  · simp
  · rename_i t c hs
    have hb := scanCSI_ok_bounds hs
    split
    · simp
    · split
      · simp
      · exact ⟨fun hh => absurd rfl hh,
          fun _ => ⟨by simp, Nat.succ_pos _, (by omega : t + 1 ≤ data.length)⟩⟩

/-! ## Success-shape lemmas for the parsers -/

theorem win32_ok_shape {data : List Nat} {e : InputEvent} {n : Nat}
    (h : ParseWin32InputEvent data = ⟨some e, n, none⟩) :
    ∃ t, scanCSI data = ⟨t, 95, none⟩ ∧
      e = win32Build (splitByte 59 ((data.take t).drop 2)) ∧ n = t + 1 := by
  unfold ParseWin32InputEvent at h
  split at h
  · exact absurd h (by simp)
  · rename_i t c hs
    split at h
    · exact absurd h (by simp)
    · rename_i hc
      simp only [ne_eq, Decidable.not_not] at hc
      subst hc
      simp only [ParseReturn.mk.injEq, Option.some.injEq] at h
      exact ⟨t, hs, h.1.symm, h.2.1.symm⟩

theorem win32_ok_of_scan {data : List Nat} {t : Nat}
    (hs : scanCSI data = ⟨t, 95, none⟩) :
    ParseWin32InputEvent data =
      ⟨some (win32Build (splitByte 59 ((data.take t).drop 2))), t + 1,
       none⟩ := by
  unfold ParseWin32InputEvent
  rw [hs]
  simp

theorem win32_invalid_of_scan {data : List Nat} {t c : Nat}
    (hs : scanCSI data = ⟨t, c, none⟩) (hc : c ≠ 95) :
    ParseWin32InputEvent data = ⟨none, 0, some .invalidSequence⟩ := by
  unfold ParseWin32InputEvent
  rw [hs]
  simp [hc]

theorem legacyCSI_ok_shape {data : List Nat} {e : InputEvent} {n : Nat}
    (h : ParseLegacyCSI data = ⟨some e, n, none⟩) :
    ∃ t c, scanCSI data = ⟨t, c, none⟩ ∧
      e = legacyCSIBuild c (splitByte 59 ((data.take t).drop 2)) ∧
      n = t + 1 := by
  unfold ParseLegacyCSI at h
  split at h
  · exact absurd h (by simp)
  · rename_i t c hs
    split at h
    · exact absurd h (by simp)
    · simp only [ParseReturn.mk.injEq, Option.some.injEq] at h
      exact ⟨t, c, hs, h.1.symm, h.2.1.symm⟩

theorem ss3_ok_shape {data : List Nat} {e : InputEvent} {n : Nat}
    (h : ParseLegacySS3 data = ⟨some e, n, none⟩) :
    ∃ v, ss3VK (data.getD 2 0) = some v ∧
      e = { typ := KeyEventType, KeyDown := true, IsLegacy := true,
            VirtualKeyCode := v } ∧ n = 3 := by
  unfold ParseLegacySS3 at h
  split at h
  · exact absurd h (by simp)
  · split at h
    · exact absurd h (by simp)
    · split at h
      · exact absurd h (by simp)
      · split at h
        · exact absurd h (by simp)
        · rename_i v hv
          simp only [ParseReturn.mk.injEq, Option.some.injEq] at h
          exact ⟨v, hv, h.1.symm, h.2.1.symm⟩

theorem sgr_ok_shape {data : List Nat} {e : InputEvent} {n : Nat}
    (h : ParseMouseSGR data = ⟨some e, n, none⟩) :
    ∃ t c, scanCSI data = ⟨t, c, none⟩ ∧
      e = sgrBuild c (splitByte 59 ((data.take t).drop 3)) ∧ n = t + 1 := by
  unfold ParseMouseSGR at h
  split at h
  · exact absurd h (by simp)
  · rename_i t c hs
    split at h
    · exact absurd h (by simp)
    · split at h
      · exact absurd h (by simp)
      · simp only [ParseReturn.mk.injEq, Option.some.injEq] at h
        exact ⟨t, c, hs, h.1.symm, h.2.1.symm⟩

theorem kitty_ok_shape {data : List Nat} {e : InputEvent} {n : Nat}
    (h : ParseKitty data = ⟨some e, n, none⟩) :
    ∃ t c ps, scanCSI data = ⟨t, c, none⟩ ∧ kittyValidTerm c = true ∧
      kittyLoop ((data.take t).drop 2) 0 0 {} = some ps ∧
      e = kittyBuild ps c ∧ n = t + 1 := by
  unfold ParseKitty at h
  split at h
  · exact absurd h (by simp)
  · rename_i t c hs
    split at h
    · exact absurd h (by simp)
    · rename_i hterm
      split at h
      · exact absurd h (by simp)
      · rename_i ps hps
        simp only [Bool.not_eq_true] at hterm
        simp only [ParseReturn.mk.injEq, Option.some.injEq] at h
        refine ⟨t, c, ps, hs, ?_, hps, h.1.symm, h.2.1.symm⟩
        revert hterm
        cases kittyValidTerm c <;> simp

theorem translate_ok_event {r : Int} {e : InputEvent}
    (h : translateLegacyByte r = some e) :
    e.IsLegacy = true ∧ e.RepeatCount = 0 ∧ e.KeyDown = true ∧
    e.typ = KeyEventType := by
  unfold translateLegacyByte at h
  repeat' split at h
  all_goals first
    | (injection h with h1; subst h1; exact ⟨rfl, rfl, rfl, rfl⟩)
    | exact absurd h (by simp)

theorem win32_ok_event {data : List Nat} {e : InputEvent} {n : Nat}
    (h : ParseWin32InputEvent data = ⟨some e, n, none⟩) :
    e.IsLegacy = false ∧ e.typ = KeyEventType := by
  obtain ⟨t, hs, he, hn⟩ := win32_ok_shape h
  subst he
  exact ⟨rfl, rfl⟩

theorem sgr_ok_event {data : List Nat} {e : InputEvent} {n : Nat}
    (h : ParseMouseSGR data = ⟨some e, n, none⟩) :
    e.IsLegacy = false ∧ e.typ = MouseEventType := by
  obtain ⟨t, c, hs, he, hn⟩ := sgr_ok_shape h
  subst he
  exact ⟨rfl, rfl⟩

theorem kitty_ok_event {data : List Nat} {e : InputEvent} {n : Nat}
    (h : ParseKitty data = ⟨some e, n, none⟩) :
    e.IsLegacy = false ∧ e.RepeatCount = 1 ∧ e.typ = KeyEventType := by
  obtain ⟨t, c, ps, hs, hterm, hps, he, hn⟩ := kitty_ok_shape h
  subst he
  exact ⟨rfl, rfl, rfl⟩

theorem legacyCSI_ok_event {data : List Nat} {e : InputEvent} {n : Nat}
    (h : ParseLegacyCSI data = ⟨some e, n, none⟩) :
    e.IsLegacy = true ∧ e.RepeatCount = 0 ∧ e.KeyDown = true ∧
    e.typ = KeyEventType := by
  obtain ⟨t, c, hs, he, hn⟩ := legacyCSI_ok_shape h
  subst he
  exact ⟨rfl, rfl, rfl, rfl⟩

theorem ss3_ok_event {data : List Nat} {e : InputEvent} {n : Nat}
    (h : ParseLegacySS3 data = ⟨some e, n, none⟩) :
    e.IsLegacy = true ∧ e.RepeatCount = 0 ∧ e.KeyDown = true ∧
    e.typ = KeyEventType := by
  obtain ⟨v, hv, he, hn⟩ := ss3_ok_shape h
  subst he
  exact ⟨rfl, rfl, rfl, rfl⟩

theorem parseReturn_eta {r : ParseReturn} {e : InputEvent} {n : Nat}
    (herr : r.err = none) (hev : r.event = some e) (hn : r.n = n) :
    r = ⟨some e, n, none⟩ := by
  rcases r with ⟨a, b, c⟩
  simp_all

/-- Complete classification of `readStep` emissions: every emitted event
comes from exactly one `return` site of `ReadEvent`, with the event that Go
builds there. -/
theorem readStep_emit_spec {buf : List Nat} {e : InputEvent} {n : Nat}
    {p : ReadPath} (h : readStep buf = .emit e n p) :
    (p = .ss3 ∧ (ParseLegacySS3 buf).err = none ∧
      (ParseLegacySS3 buf).event = some e ∧ (ParseLegacySS3 buf).n = n) ∨
    (p = .focusIn ∧ e = { typ := FocusEventType, SetFocus := true } ∧
      n = 3) ∨
    (p = .focusOut ∧ e = { typ := FocusEventType, SetFocus := false } ∧
      n = 3) ∨
    (p = .pasteBegin ∧ e = { typ := PasteEventType, PasteStart := true }) ∨
    (p = .pasteEnd ∧ e = { typ := PasteEventType, PasteStart := false }) ∨
    (p = .win32 ∧ (ParseWin32InputEvent buf).err = none ∧
      (ParseWin32InputEvent buf).event = some e ∧
      (ParseWin32InputEvent buf).n = n) ∨
    (p = .sgrMouse ∧ (ParseMouseSGR buf).err = none ∧
      (ParseMouseSGR buf).event = some e ∧ (ParseMouseSGR buf).n = n) ∨
    (p = .kitty ∧ (ParseKitty buf).err = none ∧
      (ParseKitty buf).event = some e ∧ (ParseKitty buf).n = n) ∨
    (p = .legacyCSI ∧ (ParseLegacyCSI buf).err = none ∧
      (ParseLegacyCSI buf).event = some e ∧ (ParseLegacyCSI buf).n = n) ∨
    (p = .doubleEsc ∧ e = escKeyEvent ∧ n = 2) ∨
    (p = .altKey ∧
      e = { typ := KeyEventType, Char := (decodeRuneGo (buf.drop 1)).1,
            ControlKeyState := LeftAltPressed, KeyDown := true,
            IsLegacy := true }) ∨
    (p = .backDel ∧
      e = { typ := KeyEventType, VirtualKeyCode := VK_BACK, KeyDown := true,
            IsLegacy := true } ∧ n = 1) ∨
    (p = .ctrlByte ∧ translateLegacyByte (decodeRuneGo buf).1 = some e) ∨
    (p = .utf8Char ∧
      e = { typ := KeyEventType, Char := (decodeRuneGo buf).1,
            KeyDown := true, IsLegacy := true }) := by
  unfold readStep at h
  repeat' split at h
  all_goals try (unfold readEscFallback at h)
  all_goals repeat' split at h
  all_goals try (simp only [reduceCtorEq] at h)
  all_goals try (rename_i heq; unfold readDispatch at heq; repeat' split at heq)
  all_goals simp_all

/-! ## Kitty claim (C6) -/

/-- The carrier-char source of the Kitty decode: `group0[1]` if nonzero else
`group0[0]` (as Go `int` values). -/
def kittyUC (ps : KittyParams) : Int :=
  if wrap64 ps.p01 = 0 then wrap64 ps.p00 else wrap64 ps.p01

/-- The carrier-char pipeline of the Kitty decode, in the claim's terms (with
the repair the code forces: the char is also dropped when its 32-bit
truncation is not a valid Unicode scalar): clear when `< 32`, `= 127` or in
`57358..57454` or not a valid scalar; uppercase under CapsLock-without-Shift;
uppercase under Alt unless the virtual key is one of Esc, Delete, Back, Tab,
Return, Space. -/
def kittyCharFrom (uc0 : Int) (cks vk : Nat) : Int :=
  let uc : Int :=
    if uc0 < 32 ∨ uc0 = 127 ∨ (57358 ≤ uc0 ∧ uc0 ≤ 57454) then 0 else uc0
  let ch0 : Int := if uc > 0 ∧ validRuneGo (wrap32 uc) then wrap32 uc else 0
  let ch1 : Int :=
    if cks &&& CapsLockOn ≠ 0 ∧ cks &&& ShiftPressed = 0 then toUpperGo ch0
    else ch0
  if (cks &&& LeftAltPressed ≠ 0 ∨ cks &&& RightAltPressed ≠ 0) ∧
     ¬(vk = VK_ESCAPE ∨ vk = VK_DELETE ∨ vk = VK_BACK ∨ vk = VK_TAB ∨
       vk = VK_RETURN ∨ vk = VK_SPACE) ∧
     ch1 > 0 then toUpperGo ch1
  else ch1

/-- C6 counterexample: for `ESC [ 55296 u` the carrier 55296 (0xD800, a
surrogate) is none of: below 32, equal to 127, inside 57358..57454 — yet the
parsed event's char is 0, because the code additionally drops values that are
not valid Unicode scalars (`utf8.ValidRune`), a condition the claim omits. -/
theorem kitty_char_surrogate_cleared :
    (ParseKitty [27, 91, 53, 53, 50, 57, 54, 117]).err = none ∧
    Option.map InputEvent.Char
      (ParseKitty [27, 91, 53, 53, 50, 57, 54, 117]).event = some 0 ∧
    ¬((55296 : Int) < 32 ∨ (55296 : Int) = 127 ∨
      ((57358 : Int) ≤ 55296 ∧ (55296 : Int) ≤ 57454)) := by
  refine ⟨by decide, by decide, by decide⟩

/-- C6 (amended): on every valid Kitty sequence the event's char follows the
claimed pipeline — carrier `group0[1]` if nonzero else `group0[0]`, cleared
when `< 32`, `= 127`, in `57358..57454` **or not a valid Unicode scalar
value after int32 truncation**, uppercased under CapsLock-without-Shift, and
uppercased under any Alt modifier unless the VK is one of {Esc, Delete,
Back, Tab, Return, Space}; `key_down` is true exactly when the event-type
sub-parameter differs from 3, and `repeat_count = 1`. -/
theorem kitty_char_pipeline_amended (data : List Nat) (e : InputEvent)
    (n t c : Nat) (ps : KittyParams)
    (hs : scanCSI data = ⟨t, c, none⟩)
    (hps : kittyLoop ((data.take t).drop 2) 0 0 {} = some ps)
    (hok : ParseKitty data = ⟨some e, n, none⟩) :
    e.RepeatCount = 1 ∧
    (e.KeyDown = true ↔ wrap64 ps.p11 ≠ 3) ∧
    e.Char =
      kittyCharFrom (kittyUC ps) e.ControlKeyState e.VirtualKeyCode := by
  obtain ⟨t', c', ps', hs', hterm, hps', he, hn⟩ := kitty_ok_shape hok
  rw [hs] at hs'
  obtain ⟨ht, hc, -⟩ := ScanReturn.mk.injEq .. ▸ hs'
  subst ht
  subst hc
  rw [hps] at hps'
  obtain hps'' := Option.some.inj hps'
  subst hps''
  subst he
  refine ⟨rfl, by simp [kittyBuild], rfl⟩

/-- C6 witness: the pipeline applied to `ESC [ 97 ; 65 u` (letter a with the
CapsLock modifier bit): the char is uppercased to 65. -/
theorem kitty_char_pipeline_amended_witness :
    (kittyBuild ⟨97, 0, 0, 65, 0, 0⟩ 117).RepeatCount = 1 ∧
    (kittyBuild ⟨97, 0, 0, 65, 0, 0⟩ 117).Char = 65 := by
  have h := kitty_char_pipeline_amended [27, 91, 57, 55, 59, 54, 53, 117]
    (kittyBuild ⟨97, 0, 0, 65, 0, 0⟩ 117) 8 7 117 ⟨97, 0, 0, 65, 0, 0⟩
    (by decide) (by decide) (by decide)
  refine ⟨h.1, ?_⟩
  rw [h.2.2]
  decide

/-! ## Reader claims (C4, C5, C8, C9) -/

/-- The `i`-th `;`-separated field of a Win32 payload, parsed as the Go code
parses it (missing and empty fields both give 0). -/
def w32field (data : List Nat) (t i : Nat) : Nat :=
  parseUint32Go ((splitByte 59 ((data.take t).drop 2)).getD i [])


/-- C4 counterexample: the legacy CSI parse of `ESC [ A` (Up arrow) succeeds
and leaves `RepeatCount = 0`, its Go zero value — not `≥ 1`. -/
theorem legacy_repeat_count_zero :
    (ParseLegacyCSI [27, 91, 65]).err = none ∧
    Option.map InputEvent.RepeatCount (ParseLegacyCSI [27, 91, 65]).event
      = some 0 := by
  decide

/-- C4 (amended): the Kitty parser always emits `repeat_count = 1` and the
Win32 parser emits `repeat_count ≥ 1` except when the Rc field is positive
with zero low 16 bits (uint16 truncation); the legacy CSI and SS3 parsers,
the C0 translator, and the reader's double-ESC/Alt/0x7F/UTF-8 fallbacks and
timeout event all leave `repeat_count = 0` (the Go zero value), so the
claimed `repeat_count ≥ 1` fails on every legacy path. -/
theorem repeat_count_amended :
    (∀ data e n, ParseKitty data = ⟨some e, n, none⟩ → e.RepeatCount = 1) ∧
    (∀ data t e n, scanCSI data = ⟨t, 95, none⟩ →
      ParseWin32InputEvent data = ⟨some e, n, none⟩ →
      (1 ≤ e.RepeatCount ∨
        (0 < w32field data t 5 ∧ w32field data t 5 % 65536 = 0))) ∧
    (∀ data e n, ParseLegacyCSI data = ⟨some e, n, none⟩ →
      e.RepeatCount = 0) ∧
    (∀ data e n, ParseLegacySS3 data = ⟨some e, n, none⟩ →
      e.RepeatCount = 0) ∧
    (∀ r e, translateLegacyByte r = some e → e.RepeatCount = 0) ∧
    (∀ buf e n p, readStep buf = .emit e n p →
      (p = .doubleEsc ∨ p = .altKey ∨ p = .backDel ∨ p = .utf8Char) →
      e.RepeatCount = 0) ∧
    escKeyEvent.RepeatCount = 0 := by
  refine ⟨fun data e n h => (kitty_ok_event h).2.1,
    fun data t e n hs hw => ?_,
    fun data e n h => (legacyCSI_ok_event h).2.1,
    fun data e n h => (ss3_ok_event h).2.1,
    fun r e h => (translate_ok_event h).2.1,
    fun buf e n p h hp => ?_, rfl⟩
  · obtain ⟨t', hs', he, hn⟩ := win32_ok_shape hw
    rw [hs] at hs'
    obtain ⟨ht, -, -⟩ := ScanReturn.mk.injEq .. ▸ hs'
    subst ht he
    by_cases h0 : w32field data t 5 > 0
    · by_cases hm : w32field data t 5 % 65536 = 0
      · exact Or.inr ⟨h0, hm⟩
      · left
        show 1 ≤ (if w32field data t 5 > 0 then w32field data t 5 % 65536
          else 1)
        rw [if_pos h0]
        omega
    · left
      show 1 ≤ (if w32field data t 5 > 0 then w32field data t 5 % 65536
        else 1)
      rw [if_neg h0]
  · rcases readStep_emit_spec h with
      ⟨hp', -⟩ | ⟨hp', -⟩ | ⟨hp', -⟩ | ⟨hp', -⟩ | ⟨hp', -⟩ | ⟨hp', -⟩ |
      ⟨hp', -⟩ | ⟨hp', -⟩ | ⟨hp', -⟩ | ⟨hp', he, -⟩ | ⟨hp', he⟩ |
      ⟨hp', he, -⟩ | ⟨hp', -⟩ | ⟨hp', he⟩ <;> subst hp' <;>
      first
        | (subst he; rfl)
        | (simp at hp)

/-- C4 witness: the Kitty conjunct applied to `ESC [ 97 u` (the letter a). -/
theorem repeat_count_amended_witness :
    (kittyBuild ⟨97, 0, 0, 0, 0, 0⟩ 117).RepeatCount = 1 :=
  repeat_count_amended.1 [27, 91, 57, 55, 117]
    (kittyBuild ⟨97, 0, 0, 0, 0, 0⟩ 117) 5 (by decide)

/-- C5 counterexample: the double-ESC fallback emits the Esc key event with
`is_legacy = false` (the Go zero value), not `true` as claimed. -/
theorem double_esc_not_legacy :
    readStep [27, 27] = .emit escKeyEvent 2 .doubleEsc ∧
    escKeyEvent.IsLegacy = false := by
  constructor
  · decide
  · rfl

/-- C5 (amended): an emitted event has `is_legacy = true` exactly when it
came from the legacy SS3 parser, the legacy CSI parser, the Alt+key
fallback, the 0x7F backspace byte, the C0 translator or bare UTF-8 input;
Win32, Kitty, focus, paste and SGR-mouse events have `is_legacy = false` —
and so do, contrary to the original claim, the double-ESC and
lone-ESC-timeout events. -/
theorem is_legacy_amended :
    (∀ buf e n p, readStep buf = .emit e n p →
      (e.IsLegacy = true ↔ (p = .ss3 ∨ p = .legacyCSI ∨ p = .altKey ∨
        p = .backDel ∨ p = .ctrlByte ∨ p = .utf8Char))) ∧
    escKeyEvent.IsLegacy = false := by
  refine ⟨fun buf e n p h => ?_, rfl⟩
  rcases readStep_emit_spec h with
    ⟨hp, herr, hev, hn⟩ | ⟨hp, he, -⟩ | ⟨hp, he, -⟩ | ⟨hp, he⟩ | ⟨hp, he⟩ |
    ⟨hp, herr, hev, hn⟩ | ⟨hp, herr, hev, hn⟩ | ⟨hp, herr, hev, hn⟩ |
    ⟨hp, herr, hev, hn⟩ | ⟨hp, he, -⟩ | ⟨hp, he⟩ | ⟨hp, he, -⟩ |
    ⟨hp, htr⟩ | ⟨hp, he⟩ <;> subst hp
  · have := ss3_ok_event (parseReturn_eta herr hev hn)
    simp [this.1]
  · subst he; simp
  · subst he; simp
  · subst he; simp
  · subst he; simp
  · have := win32_ok_event (parseReturn_eta herr hev hn)
    simp [this.1]
  · have := sgr_ok_event (parseReturn_eta herr hev hn)
    simp [this.1]
  · have := kitty_ok_event (parseReturn_eta herr hev hn)
    simp [this.1]
  · have := legacyCSI_ok_event (parseReturn_eta herr hev hn)
    simp [this.1]
  · subst he; simp [escKeyEvent]
  · subst he; simp
  · subst he; simp
  · have := translate_ok_event htr
    simp [this.1]
  · subst he; simp

/-- C5 witness: the amended equivalence applied to the 0x7F backspace
byte. -/
theorem is_legacy_amended_witness :
    (({ typ := KeyEventType, VirtualKeyCode := VK_BACK, KeyDown := true,
        IsLegacy := true } : InputEvent).IsLegacy = true ↔
      (ReadPath.backDel = .ss3 ∨ ReadPath.backDel = .legacyCSI ∨
       ReadPath.backDel = .altKey ∨ ReadPath.backDel = .backDel ∨
       ReadPath.backDel = .ctrlByte ∨ ReadPath.backDel = .utf8Char)) :=
  is_legacy_amended.1 [127]
    { typ := KeyEventType, VirtualKeyCode := VK_BACK, KeyDown := true,
      IsLegacy := true } 1 .backDel (by decide)

/-- C8: whenever the buffer starts with two ESC bytes, no parser accepts it
(SS3 and the CSI framer both reject at the second byte), and the reader
consumes exactly both bytes and emits a single Esc key event; for the
two-byte input `1B 1B` this leaves the buffer empty. -/
theorem double_esc_consumes_both (rest : List Nat) :
    readStep (27 :: 27 :: rest) = .emit escKeyEvent 2 .doubleEsc ∧
    (27 :: 27 :: rest).drop 2 = rest ∧
    escKeyEvent.typ = KeyEventType ∧
    escKeyEvent.VirtualKeyCode = VK_ESCAPE ∧
    escKeyEvent.KeyDown = true := by
  refine ⟨?_, rfl, rfl, rfl, rfl⟩
  have hss3 : ParseLegacySS3 (27 :: 27 :: rest) =
      ⟨none, 0, some .invalidSequence⟩ := by
    have h1 : ¬ (27 :: 27 :: rest : List Nat).length < 2 := by
      simp only [List.length_cons]
      omega
    unfold ParseLegacySS3
    rw [if_neg h1, if_pos (Or.inr (by simp))]
  have hscan : scanCSI (27 :: 27 :: rest) = ⟨0, 0, some .invalidSequence⟩ := by
    have h1 : ¬ (27 :: 27 :: rest : List Nat).length < 2 := by
      simp only [List.length_cons]
      omega
    unfold scanCSI
    rw [if_neg h1, if_pos (Or.inr (by simp))]
  have hlen : 2 ≤ (27 :: 27 :: rest : List Nat).length := by
    simp only [List.length_cons]
    omega
  unfold readStep
  rw [hss3, hscan]
  simp [readEscFallback, hlen]

/-- C9: the wait-for-more race over an ESC-headed buffer emits the bare Esc
key event (VK_ESCAPE, key down) with exactly the leading byte removed when —
and only when — the 100 ms timer branch wins; an arriving byte or the
source-done drain never emits an event from this state. -/
theorem esc_timeout_emits_bare_esc (buf : List Nat) (hne : buf ≠ [])
    (h0 : buf.getD 0 0 = 0x1B) :
    waitForMore buf .timedOut = .emitEvent escKeyEvent (buf.drop 1) ∧
    escKeyEvent.typ = KeyEventType ∧
    escKeyEvent.VirtualKeyCode = VK_ESCAPE ∧
    escKeyEvent.KeyDown = true ∧
    (∀ o e nb, waitForMore buf o = .emitEvent e nb → o = .timedOut) ∧
    escTimeoutMillis = 100 := by
  refine ⟨rfl, rfl, rfl, rfl, fun o e nb ho => ?_, rfl⟩
  cases o with
  | byteArrives b => simp [waitForMore] at ho
  | timedOut => rfl
  | sourceDone pending =>
    simp only [waitForMore] at ho
    split at ho <;> simp at ho

/-- C9 witness: the timeout branch on the lone-ESC buffer. -/
theorem esc_timeout_emits_bare_esc_witness :
    waitForMore [27] .timedOut = .emitEvent escKeyEvent [] :=
  (esc_timeout_emits_bare_esc [27] (by decide) (by decide)).1

/-! ## Win32 Input Mode claim (C2) -/

/-- C2 counterexample: `ESC [ 65536 _` carries the Vk field 65536, but the
event's VirtualKeyCode is 0 (Go `uint16` truncation) — the field is not
carried verbatim. -/
theorem win32_field_not_verbatim :
    (ParseWin32InputEvent [27, 91, 54, 53, 53, 51, 54, 95]).err = none ∧
    Option.map InputEvent.VirtualKeyCode
      (ParseWin32InputEvent [27, 91, 54, 53, 53, 51, 54, 95]).event
      = some 0 ∧
    Option.map InputEvent.VirtualKeyCode
      (ParseWin32InputEvent [27, 91, 54, 53, 53, 51, 54, 95]).event
      ≠ some 65536 := by
  decide

/-- C2 (amended): for every complete CSI frame, a final byte other than `_`
is rejected as invalid; final byte `_` yields a Key event assembled from the
six `;`-separated fields `Vk;Sc;Uc;Kd;Cs;Rc` (missing/empty fields default
to 0; `Rc` missing or 0 defaults to 1), with `KeyDown` true exactly when the
Kd field parses to 1 and `is_legacy = false` — the fields are carried reduced
to the event's declared widths (low 16 bits for Vk/Sc/Rc, int32 for Uc)
rather than fully verbatim. In particular `1B 5B 3B 3B 3B 3B 3B 5F` yields
the all-defaults event with RepeatCount 1 and KeyDown false. -/
theorem win32_parse_amended (data : List Nat) (t c : Nat)
    (hs : scanCSI data = ⟨t, c, none⟩) :
    (c ≠ 95 → ParseWin32InputEvent data = ⟨none, 0, some .invalidSequence⟩) ∧
    (c = 95 →
      ∃ e, ParseWin32InputEvent data = ⟨some e, t + 1, none⟩ ∧
        e.typ = KeyEventType ∧
        e.VirtualKeyCode = w32field data t 0 % 65536 ∧
        e.VirtualScanCode = w32field data t 1 % 65536 ∧
        e.Char = wrap32 ((w32field data t 2 : Nat) : Int) ∧
        (e.KeyDown = true ↔ w32field data t 3 = 1) ∧
        e.ControlKeyState = w32field data t 4 ∧
        e.RepeatCount =
          (if w32field data t 5 > 0 then w32field data t 5 % 65536 else 1) ∧
        (w32field data t 5 = 0 → e.RepeatCount = 1) ∧
        e.IsLegacy = false) ∧
    ParseWin32InputEvent [27, 91, 59, 59, 59, 59, 59, 95] =
      ⟨some { typ := KeyEventType, RepeatCount := 1 }, 8, none⟩ := by
  refine ⟨fun hc => win32_invalid_of_scan hs hc, fun hc => ?_, by decide⟩
  subst hc
  refine ⟨win32Build (splitByte 59 ((data.take t).drop 2)),
    win32_ok_of_scan hs, rfl, rfl, rfl, ?_, ?_, rfl, rfl, ?_, rfl⟩
  · unfold win32Build w32field
    norm_num
  · simp [win32Build, w32field]
  · intro h0
    show (if w32field data t 5 > 0 then w32field data t 5 % 65536 else 1) = 1
    simp [h0]

/-- C2 witness: the amended theorem applied to the all-defaults frame
`1B 5B 3B 3B 3B 3B 3B 5F`. -/
theorem win32_parse_amended_witness :
    ParseWin32InputEvent [27, 91, 59, 59, 59, 59, 59, 95] =
      ⟨some { typ := KeyEventType, RepeatCount := 1 }, 8, none⟩ :=
  (win32_parse_amended [27, 91, 59, 59, 59, 59, 59, 95] 7 95 (by decide)).2.2

/-! ## SGR mouse claims (C3, C7) -/

/-- The `i`-th parameter of an SGR payload, as `ParseMouseSGR` reads it. -/
def sgrPb (data : List Nat) (t i : Nat) : Int :=
  atoiGo ((splitByte 59 ((data.take t).drop 3)).getD i [])

theorem sgrButton_cases (pb : Int) :
    sgrButton pb = 0 ∨ sgrButton pb = FromLeft1stButtonPressed ∨
    sgrButton pb = FromLeft2ndButtonPressed ∨
    sgrButton pb = RightmostButtonPressed := by
  unfold sgrButton
  split
  · simp
  · split
    · simp [FromLeft1stButtonPressed]
    · split
      · simp [FromLeft2ndButtonPressed]
      · split
        · simp [RightmostButtonPressed]
        · simp

theorem sgrWheelDir_cases (pb : Int) :
    sgrWheelDir pb = -1 ∨ sgrWheelDir pb = 0 ∨ sgrWheelDir pb = 1 := by
  unfold sgrWheelDir
  split
  · split
    · simp
    · split <;> simp
  · simp

theorem sgrButton_wheel_exclusive (pb : Int) :
    sgrButton pb = 0 ∨ sgrWheelDir pb = 0 := by
  unfold sgrButton sgrWheelDir
  by_cases hw : intBit pb 6 <;> simp [hw]

theorem sgrFlags_cases (pb : Int) :
    sgrFlags pb = 0 ∨ sgrFlags pb = MouseMoved := by
  unfold sgrFlags
  split <;> simp

/-- C3 counterexample: the no-button frame `ESC [ < 3 ; 1 ; 1 M` (`Pb = 3`,
release/motion-without-button encoding) parses into a mouse event whose
button mask, wheel direction and event flags are all zero — none of the three
conditions of the claim holds, so "exactly one" is false. -/
theorem sgr_exactly_one_fails :
    (ParseMouseSGR [27, 91, 60, 51, 59, 49, 59, 49, 77]).err = none ∧
    Option.map InputEvent.ButtonState
      (ParseMouseSGR [27, 91, 60, 51, 59, 49, 59, 49, 77]).event = some 0 ∧
    Option.map InputEvent.WheelDirection
      (ParseMouseSGR [27, 91, 60, 51, 59, 49, 59, 49, 77]).event = some 0 ∧
    Option.map InputEvent.MouseEventFlags
      (ParseMouseSGR [27, 91, 60, 51, 59, 49, 59, 49, 77]).event = some 0 := by
  decide

/-- C3 (amended): every mouse event out of `ParseMouseSGR` has a button mask
that is zero or a single bit, a wheel direction in {−1, 0, +1}, never both a
button and a wheel, and flags either empty or exactly `Moved`; an event may
also satisfy none of button/wheel/Moved (e.g. `Pb = 3`) or two of them (e.g.
wheel plus motion). -/
theorem sgr_mouse_invariant_amended (data : List Nat) (e : InputEvent)
    (n : Nat) (h : ParseMouseSGR data = ⟨some e, n, none⟩) :
    (e.ButtonState = 0 ∨ e.ButtonState = FromLeft1stButtonPressed ∨
     e.ButtonState = FromLeft2ndButtonPressed ∨
     e.ButtonState = RightmostButtonPressed) ∧
    (e.WheelDirection = -1 ∨ e.WheelDirection = 0 ∨ e.WheelDirection = 1) ∧
    (e.ButtonState = 0 ∨ e.WheelDirection = 0) ∧
    (e.MouseEventFlags = 0 ∨ e.MouseEventFlags = MouseMoved) := by
  obtain ⟨t, c, hs, he, hn⟩ := sgr_ok_shape h
  subst he
  exact ⟨sgrButton_cases _, sgrWheelDir_cases _, sgrButton_wheel_exclusive _,
    sgrFlags_cases _⟩

/-- C3 witness: the amended invariant applied to a left-press frame. -/
theorem sgr_mouse_invariant_amended_witness :
    (sgrBuild 77 [[48], [49, 48], [50, 48]]).WheelDirection = -1 ∨
    (sgrBuild 77 [[48], [49, 48], [50, 48]]).WheelDirection = 0 ∨
    (sgrBuild 77 [[48], [49, 48], [50, 48]]).WheelDirection = 1 := by
  have h := sgr_mouse_invariant_amended
    [27, 91, 60, 48, 59, 49, 48, 59, 50, 48, 77]
    (sgrBuild 77 [[48], [49, 48], [50, 48]]) 11 (by decide)
  exact h.2.1

theorem sgrWheelDir_up {pb : Int} (h6 : intBit pb 6 = true)
    (h0 : sgrButtonPart pb = 0) : sgrWheelDir pb = 1 := by
  unfold sgrWheelDir
  simp [h6, h0]

theorem sgrWheelDir_down {pb : Int} (h6 : intBit pb 6 = true)
    (h1 : sgrButtonPart pb = 1) : sgrWheelDir pb = -1 := by
  unfold sgrWheelDir
  simp [h6, h1]

theorem sgrFlags_moved {pb : Int} (h5 : intBit pb 5 = true) :
    sgrFlags pb = MouseMoved := by
  unfold sgrFlags
  simp [h5]

theorem sgrMods_bits (pb : Int) :
    (sgrMods pb &&& ShiftPressed ≠ 0 ↔ intBit pb 2 = true) ∧
    (sgrMods pb &&& LeftAltPressed ≠ 0 ↔ intBit pb 3 = true) ∧
    (sgrMods pb &&& LeftCtrlPressed ≠ 0 ↔ intBit pb 4 = true) := by
  unfold sgrMods
  cases h2 : intBit pb 2 <;> cases h3 : intBit pb 3 <;> cases h4 : intBit pb 4
    <;> simp [ShiftPressed, LeftAltPressed, LeftCtrlPressed] <;> decide

/-- C7 counterexample: `ESC [ < 0 ; 65537 ; 20 M` reports the X coordinate
65537 but the event carries `mouse_x = 1` (the Go `uint16` conversion), so
the coordinates are not always carried unchanged. -/
theorem sgr_coordinate_not_unchanged :
    (ParseMouseSGR [27, 91, 60, 48, 59, 54, 53, 53, 51, 55, 59, 50, 48, 77]).err
      = none ∧
    Option.map InputEvent.MouseX
      (ParseMouseSGR
        [27, 91, 60, 48, 59, 54, 53, 53, 51, 55, 59, 50, 48, 77]).event
      = some 1 ∧
    Option.map InputEvent.MouseX
      (ParseMouseSGR
        [27, 91, 60, 48, 59, 54, 53, 53, 51, 55, 59, 50, 48, 77]).event
      ≠ some 65537 := by
  decide

/-- C7 (amended): the `Pb` decode of `ParseMouseSGR` — bit 6 with button
index 0/1 gives wheel ±1, bit 5 sets `Moved`, bits 2/3/4 set
Shift/LeftAlt/LeftCtrl, `key_down` is true exactly for terminator `M` — and
the coordinates are carried unchanged whenever they fit in 16 bits; in
general the event holds their low 16 bits (Go `uint16` conversion). -/
theorem sgr_pb_decode (data : List Nat) (e : InputEvent) (n t c : Nat)
    (hs : scanCSI data = ⟨t, c, none⟩)
    (h : ParseMouseSGR data = ⟨some e, n, none⟩) :
    (intBit (sgrPb data t 0) 6 = true →
      (sgrButtonPart (sgrPb data t 0) = 0 → e.WheelDirection = 1) ∧
      (sgrButtonPart (sgrPb data t 0) = 1 → e.WheelDirection = -1)) ∧
    (intBit (sgrPb data t 0) 5 = true → e.MouseEventFlags = MouseMoved) ∧
    (e.ControlKeyState &&& ShiftPressed ≠ 0 ↔
      intBit (sgrPb data t 0) 2 = true) ∧
    (e.ControlKeyState &&& LeftAltPressed ≠ 0 ↔
      intBit (sgrPb data t 0) 3 = true) ∧
    (e.ControlKeyState &&& LeftCtrlPressed ≠ 0 ↔
      intBit (sgrPb data t 0) 4 = true) ∧
    (e.KeyDown = true ↔ c = 77) ∧
    e.MouseX = u16ofInt (sgrPb data t 1) ∧
    e.MouseY = u16ofInt (sgrPb data t 2) ∧
    (0 ≤ sgrPb data t 1 → sgrPb data t 1 < 65536 →
      (e.MouseX : Int) = sgrPb data t 1) ∧
    (0 ≤ sgrPb data t 2 → sgrPb data t 2 < 65536 →
      (e.MouseY : Int) = sgrPb data t 2) := by
  obtain ⟨t', c', hs', he, hn⟩ := sgr_ok_shape h
  rw [hs] at hs'
  obtain ⟨ht, hc, -⟩ := ScanReturn.mk.injEq .. ▸ hs'
  subst ht hc he
  refine ⟨fun h6 => ⟨fun h0 => sgrWheelDir_up h6 h0,
      fun h1 => sgrWheelDir_down h6 h1⟩,
    fun h5 => sgrFlags_moved (by simpa [sgrPb] using h5),
    (sgrMods_bits _).1, (sgrMods_bits _).2.1, (sgrMods_bits _).2.2,
    by simp [sgrBuild], rfl, rfl, fun hp1 hp2 => ?_, fun hp1 hp2 => ?_⟩
  · show ((u16ofInt (sgrPb data t 1) : Nat) : Int) = sgrPb data t 1
    unfold u16ofInt
    omega
  · show ((u16ofInt (sgrPb data t 2) : Nat) : Int) = sgrPb data t 2
    unfold u16ofInt
    omega

/-- C7 witness: the decode applied to the middle-button + Shift press
`ESC [ < 5 ; 10 ; 10 M`. -/
theorem sgr_pb_decode_witness :
    ((sgrBuild 77 [[53], [49, 48], [49, 48]]).MouseX : Int) = 10 := by
  have h := sgr_pb_decode [27, 91, 60, 53, 59, 49, 48, 59, 49, 48, 77]
    (sgrBuild 77 [[53], [49, 48], [49, 48]]) 11 10 77 (by decide) (by decide)
  exact h.2.2.2.2.2.2.2.2.1 (by decide) (by decide)

/-- C10: every parse function returns `(nil, 0)` alongside an error, and on
success consumes a positive number of bytes never exceeding the input
length. -/
theorem parsers_never_advance_on_error (data : List Nat) :
    parserContract (ParseWin32InputEvent data) data ∧
    parserContract (ParseLegacyCSI data) data ∧
    parserContract (ParseLegacySS3 data) data ∧
    parserContract (ParseMouseSGR data) data ∧
    parserContract (ParseKitty data) data :=
  ⟨win32_contract data, legacyCSI_contract data, ss3_contract data,
   sgr_contract data, kitty_contract data⟩

/-- C10 witness: the contract instantiated on the SS3 frame `ESC O R`. -/
theorem parsers_never_advance_on_error_witness :
    (ParseLegacySS3 [27, 79, 82]).event ≠ none ∧
    0 < (ParseLegacySS3 [27, 79, 82]).n ∧
    (ParseLegacySS3 [27, 79, 82]).n ≤ 3 := by
  have h := (parsers_never_advance_on_error [27, 79, 82]).2.2.1.2 (by decide)
  simpa using h

end VtInput
